import Mathlib

/-!
Verification development for the Labmate backend execution and validation
services (`backend/app/services/executor_service.py` and
`backend/app/services/validator_service.py`).

The Python services are shallowly embedded: child processes are modelled by
their observable behaviour (a wall-clock duration in seconds plus the final
stdout/stderr/exit-code triple), exceptions by `Except`/explicit outcome
sums, and the functions of the service translate to total Lean functions on
those data.
-/

namespace Labmate

/-- Observable result of a finished child process: decoded stdout, decoded
stderr, and the exit code (`process.returncode`). -/
structure ProcResult where
  stdout : String
  stderr : String
  exitCode : Int
deriving DecidableEq, Repr

/-- A child process as the executor observes it: how long it runs (seconds of
wall-clock time) and what it finally reports.  `asyncio.wait_for(.., t)`
yields the result when `duration ≤ t` and raises `TimeoutError` otherwise. -/
structure Proc where
  duration : Nat
  result : ProcResult
deriving DecidableEq, Repr

/-- Outcome of one `await asyncio.create_subprocess_exec(..)` step: either the
child process it produced, or an exception message caught by the surrounding
`except Exception as e` handler. -/
inductive StepOutcome where
  | ok (p : Proc)
  | exn (e : String)
deriving DecidableEq, Repr

/-- The 4-tuple `(success, output_text, logs, exit_code)` returned by the
executor entry points. -/
structure ExecResult where
  success : Bool
  stdout : String
  stderr : String
  exitCode : Int
deriving DecidableEq, Repr

/-- The fixed timeout (seconds) passed to `asyncio.wait_for` in
`_execute_python_code`, `_execute_c_code` and `_execute_java_code`
(`timeout=30.0`). -/
def runTimeout : Nat := 30

/-- The shared run-step block (verbatim in `_execute_python_code` lines
102-118, `_execute_c_code` lines 172-188 and `_execute_java_code` lines
264-286): race `process.communicate()` against `runTimeout`; on completion
return `(exit_code == 0, stdout, stderr, exit_code)`, on `TimeoutError` kill
the process and return `(False, "", "Execution timeout (30s limit)", 124)`. -/
def awaitRunStep (p : Proc) : ExecResult :=
  if p.duration ≤ runTimeout then
    ⟨p.result.exitCode == 0, p.result.stdout, p.result.stderr, p.result.exitCode⟩
  else
    ⟨false, "", "Execution timeout (30s limit)", 124⟩

/-- Result tuple of the generic `except Exception as e` handlers of the three
`_execute_*_code` functions: `(False, "", f"Execution error: {e}", 1)`. -/
def execErrorResult (e : String) : ExecResult :=
  ⟨false, "", "Execution error: " ++ e, 1⟩

/-- `_execute_python_code` (executor_service.py lines 79-127): spawn
`python3 tempfile` and run the shared run-step block; any other exception
maps to the `Execution error:` tuple. -/
def executePythonCode (run : StepOutcome) : ExecResult :=
  match run with
  | .exn e => execErrorResult e
  | .ok p => awaitRunStep p

/-- `_execute_c_code` (executor_service.py lines 129-202): compile with gcc —
`compile_process.communicate()` is awaited with NO timeout — and if the
compiler exits non-zero return
`(False, "", f"Compilation error: {errors}", compile_process.returncode)`
without running the executable; otherwise run the executable through the
shared run-step block. -/
def executeCCode (compile : StepOutcome) (run : StepOutcome) : ExecResult :=
  match compile with
  | .exn e => execErrorResult e
  | .ok cp =>
    if cp.result.exitCode ≠ 0 then
      ⟨false, "", "Compilation error: " ++ cp.result.stderr, cp.result.exitCode⟩
    else
      match run with
      | .exn e => execErrorResult e
      | .ok p => awaitRunStep p

/-- `_execute_java_code` (executor_service.py lines 204-303): same structure
as the C path — `javac` awaited without a timeout, non-zero compiler exit
returns the `Compilation error:` tuple without running `java`, otherwise the
shared run-step block runs the program. -/
def executeJavaCode (compile : StepOutcome) (run : StepOutcome) : ExecResult :=
  match compile with
  | .exn e => execErrorResult e
  | .ok cp =>
    if cp.result.exitCode ≠ 0 then
      ⟨false, "", "Compilation error: " ++ cp.result.stderr, cp.result.exitCode⟩
    else
      match run with
      | .exn e => execErrorResult e
      | .ok p => awaitRunStep p

/-- Wall-clock seconds spent by `_execute_python_code`: the run step is raced
against `runTimeout`, so the caller waits at most `runTimeout`. -/
def executePythonElapsed (p : Proc) : Nat :=
  min p.duration runTimeout

/-- Wall-clock seconds spent by `_execute_c_code` (and identically by
`_execute_java_code`): the compile step is awaited in full with no timeout,
then — only if compilation succeeded — the run step is raced against
`runTimeout`. -/
def executeCElapsed (cp rp : Proc) : Nat :=
  cp.duration + (if cp.result.exitCode ≠ 0 then 0 else min rp.duration runTimeout)

/-- The fixed timeout result tuple of all three run-step timeout handlers. -/
def timeoutResult : ExecResult :=
  ⟨false, "", "Execution timeout (30s limit)", 124⟩

/-! ### Regular-expression patterns of the validator

The validator only uses patterns built from literal characters (compared
case-insensitively, `re.IGNORECASE`), the two-character class `["\']`, and
the starred classes `\s*` (whitespace), `.*` (any character, `re.DOTALL`)
and `[^>]*`.  They are embedded into this small pattern language;
`regexSearch` has the existence semantics of `re.search` (some substring
starting at some position matches). -/

/-- The three starred character classes occurring in the validator's
patterns. -/
inductive StarKind where
  | ws
  | anyChar
  | notGt
deriving DecidableEq, Repr

/-- Which characters a starred class accepts: `\s` (whitespace), `.` under
`re.DOTALL` (anything), `[^>]` (anything but `>`). -/
def starPred : StarKind → Char → Bool
  | .ws, c => c.isWhitespace
  | .anyChar, _ => true
  | .notGt, c => c != '>'

/-- One atom of a validator pattern: a literal character (matched
case-insensitively), a character class, or a starred class. -/
inductive RAtom where
  | lit (c : Char)
  | cls (cs : List Char)
  | star (k : StarKind)
deriving DecidableEq, Repr

/-- Does the atom list match some prefix of the character list?  A starred
class consumes any number of accepted characters (existence semantics, which
coincides with the truthiness of `re.search`). -/
def matchesPrefix : List RAtom → List Char → Bool
  | [], _ => true
  | .lit _ :: _, [] => false
  | .lit c :: ps, d :: ds => (c.toLower == d.toLower) && matchesPrefix ps ds
  | .cls _ :: _, [] => false
  | .cls cs :: ps, d :: ds => cs.contains d && matchesPrefix ps ds
  | .star k :: ps, ds =>
      (List.range (ds.length + 1)).any fun i =>
        ((ds.take i).all (starPred k)) && matchesPrefix ps (ds.drop i)

/-- Truthiness of `re.search(pattern, s, re.IGNORECASE | re.DOTALL)`: the
pattern matches starting at some position of `s`. -/
def regexSearch (ps : List RAtom) (s : String) : Bool :=
  (List.range (s.data.length + 1)).any fun i => matchesPrefix ps (s.data.drop i)

/-- A run of literal atoms. -/
def lits (s : String) : List RAtom := s.data.map RAtom.lit

/-- `file_operations` patterns of `_validate_strings` (validator_service.py
lines 184-187): `open\s*\(`, `file\s*\(`, `\.write\s*\(`, `\.read\s*\(`,
`\.append\s*\(`, `\.writelines\s*\(`. -/
def fileOperations : List (List RAtom) :=
  [ lits "open" ++ [.star .ws, .lit '('],
    lits "file" ++ [.star .ws, .lit '('],
    [.lit '.'] ++ lits "write" ++ [.star .ws, .lit '('],
    [.lit '.'] ++ lits "read" ++ [.star .ws, .lit '('],
    [.lit '.'] ++ lits "append" ++ [.star .ws, .lit '('],
    [.lit '.'] ++ lits "writelines" ++ [.star .ws, .lit '('] ]

/-- `system_commands` patterns of `_validate_strings` (lines 194-197):
`os\.system`, `subprocess\.`, `\.popen`, `\.call`, `\.run\s*\(`,
`\.check_output`. -/
def systemCommands : List (List RAtom) :=
  [ lits "os.system",
    lits "subprocess.",
    [.lit '.'] ++ lits "popen",
    [.lit '.'] ++ lits "call",
    [.lit '.'] ++ lits "run" ++ [.star .ws, .lit '('],
    [.lit '.'] ++ lits "check_output" ]

/-- `network_operations` patterns of `_validate_strings` (lines 204-207):
`urllib`, `requests\.`, `socket\.`, `http\.`, `ftplib`, `smtplib`. -/
def networkOperations : List (List RAtom) :=
  [ lits "urllib",
    lits "requests.",
    lits "socket.",
    lits "http.",
    lits "ftplib",
    lits "smtplib" ]

/-- `extremely_dangerous_patterns` of `_validate_web_code`
(validator_service.py lines 68-78), in source order. -/
def webPatterns : List (List RAtom) :=
  [ lits "<script" ++ [.star .notGt, .lit '>', .star .anyChar]
      ++ lits "eval" ++ [.star .ws, .lit '('],
    lits "<script" ++ [.star .notGt, .lit '>', .star .anyChar]
      ++ lits "document.cookie" ++ [.star .anyChar, .lit '='],
    lits "<script" ++ [.star .notGt, .lit '>', .star .anyChar]
      ++ lits "window.location.href" ++ [.star .ws, .lit '='],
    lits "<script" ++ [.star .notGt, .lit '>', .star .anyChar]
      ++ lits "XMLHttpRequest" ++ [.star .anyChar] ++ lits "open"
      ++ [.star .anyChar] ++ lits "http",
    lits "<iframe" ++ [.star .notGt] ++ lits "src"
      ++ [.star .ws, .lit '=', .star .ws, .cls ['"', '\'']] ++ lits "http",
    lits "<object" ++ [.star .notGt] ++ lits "data"
      ++ [.star .ws, .lit '=', .star .ws, .cls ['"', '\'']] ++ lits "http",
    lits "<embed" ++ [.star .notGt] ++ lits "src"
      ++ [.star .ws, .lit '=', .star .ws, .cls ['"', '\'']] ++ lits "http",
    lits "javascript:" ++ [.star .ws] ++ lits "void",
    lits "data:text/html" ++ [.star .anyChar] ++ lits "base64" ]

/-! ### The validator service -/

/-- `settings.MAX_CODE_LENGTH` (config.py line 34). -/
def maxCodeLength : Nat := 5000

/-- The size-limit rejection message of `validate_code` (and of
`_validate_web_code`); the number is the interpolated
`settings.MAX_CODE_LENGTH`. -/
def tooLongMsg : String :=
  "Code too long. Maximum 5000 characters allowed."

/-- Python's `str.strip()`: drop leading and trailing whitespace. -/
def pyStrip (s : String) : String :=
  ⟨((s.data.dropWhile Char.isWhitespace).reverse.dropWhile
      Char.isWhitespace).reverse⟩

/-- Python's `str.lower()` (over the ASCII letters the validator uses). -/
def pyLower (s : String) : String := ⟨s.data.map Char.toLower⟩

/-- Split a character list at every separator character (Python's
`str.split(sep)` for a one-character separator, keeping empty pieces). -/
def splitCharList (c : Char) : List Char → List (List Char)
  | [] => [[]]
  | d :: ds =>
    match splitCharList c ds with
    | [] => [[]]
    | g :: gs => if d == c then [] :: g :: gs else (d :: g) :: gs

/-- Python's `s.split(sep)` for a one-character separator. -/
def splitOnChar (c : Char) (s : String) : List String :=
  (splitCharList c s.data).map String.mk

/-- Python's `s.startswith(pre)`. -/
def strStartsWith (s pre : String) : Bool := pre.data.isPrefixOf s.data

/-- `self.blocked_imports` (validator_service.py lines 12-17). -/
def blockedImports : List String :=
  ["os", "subprocess", "sys", "socket", "pathlib", "shutil",
   "eval", "exec", "compile", "__import__", "glob", "tempfile",
   "urllib", "requests", "http", "ftplib", "smtplib",
   "pickle", "marshal", "ctypes", "multiprocessing"]

/-- `self.blocked_functions` (lines 20-23). -/
def blockedFunctions : List String :=
  ["open", "file", "input", "raw_input", "exit", "quit",
   "help", "dir", "vars", "locals", "globals"]

/-- `self.blocked_attributes` (lines 26-30). -/
def blockedAttributes : List String :=
  ["__import__", "__globals__", "__locals__", "__code__",
   "__func__", "__self__", "__class__", "__bases__",
   "__subclasses__", "__mro__", "__dict__"]

/-- Shallow embedding of the Python AST nodes the validator inspects.
Python's variable-length child lists are encoded as `seq`/`nil` spines so
that all recursion stays structural; `other`-like nodes the validator never
matches are represented by the constructors they contain. -/
inductive PyNode where
  | nil
  | seq (a b : PyNode)
  | module (body : PyNode)
  | importStmt (names : List String)
  | importFrom (mod : Option String) (names : List String)
  | exprStmt (value : PyNode)
  | assign (target value : PyNode)
  | call (func args : PyNode)
  | attr (value : PyNode) (a : String)
  | name (id : String)
  | const
deriving DecidableEq, Repr

/-- Python's `s.split('.')[0]`. -/
def pyHead (s : String) : String := (splitOnChar '.' s).headD ""

/-- The alias loop of the `ast.Import` branch (lines 143-147): an alias is
rejected when its full name or its first dotted component is blocked. -/
def importAliasCheck : List String → Option String
  | [] => none
  | nm :: rest =>
    if blockedImports.contains nm then some ("Dangerous import blocked: " ++ nm)
    else if blockedImports.contains (pyHead nm) then
      some ("Dangerous import blocked: " ++ nm)
    else importAliasCheck rest

/-- The alias loop of the `ast.ImportFrom` branch (lines 153-155): only the
plain alias name is tested. -/
def fromAliasCheck : List String → Option String
  | [] => none
  | nm :: rest =>
    if blockedImports.contains nm then some ("Dangerous import blocked: " ++ nm)
    else fromAliasCheck rest

/-- The module test of the `ast.ImportFrom` branch (lines 150-151). -/
def fromModuleCheck : Option String → Option String
  | none => none
  | some m =>
    if blockedImports.contains (pyHead m) then
      some ("Dangerous import blocked: " ++ m)
    else none

/-- The `ast.Call` branch (lines 158-165): a direct call to a blocked builtin
name, or a call through a blocked attribute. -/
def callFuncCheck : PyNode → Option String
  | .name id =>
    if blockedFunctions.contains id then
      some ("Dangerous function call blocked: " ++ id)
    else none
  | .attr _ a =>
    if blockedAttributes.contains a then
      some ("Dangerous attribute access blocked: " ++ a)
    else none
  | _ => none

/-- `_validate_ast` (lines 136-178): visit every node (`ast.walk`) and apply
the per-node checks.  `ast.walk` is breadth-first while this traversal is
depth-first; when several violations exist the reported message may therefore
differ, but whether SOME violation is reported is traversal-independent.
The second `elif isinstance(node, ast.Call)` arm of the source (lines
172-176) is unreachable (shadowed by the first) and has no counterpart. -/
def astViolation : PyNode → Option String
  | .nil => none
  | .seq a b => astViolation a <|> astViolation b
  | .module body => astViolation body
  | .importStmt ns => importAliasCheck ns
  | .importFrom m ns => fromModuleCheck m <|> fromAliasCheck ns
  | .exprStmt v => astViolation v
  | .assign t v => astViolation t <|> astViolation v
  | .call f args => callFuncCheck f <|> (astViolation f <|> astViolation args)
  | .attr v a =>
      (if blockedAttributes.contains a then
        some ("Dangerous attribute access blocked: " ++ a)
      else none) <|> astViolation v
  | .name _ => none
  | .const => none

/-- Result shape of `_validate_ast`. -/
def validateAst (t : PyNode) : Bool × String :=
  match astViolation t with
  | some m => (false, m)
  | none => (true, "")

/-- `_validate_strings` (lines 180-213): three regex sweeps over the raw
text, in source order. -/
def validateStrings (code : String) : Bool × String :=
  if fileOperations.any (fun p => regexSearch p code) then
    (false, "File operations are not allowed")
  else if systemCommands.any (fun p => regexSearch p code) then
    (false, "System command execution is not allowed")
  else if networkOperations.any (fun p => regexSearch p code) then
    (false, "Network operations are not allowed")
  else (true, "")

/-- `_validate_python_code` (lines 115-134).  `ast.parse` is external to the
repository, so its outcome is the `parseResult` parameter: `.error e` when
the source raises `SyntaxError(e)`, `.ok tree` when it parses to `tree`. -/
def validatePythonCode (parseResult : Except String PyNode) (code : String) :
    Bool × String :=
  match parseResult with
  | .error e => (false, "Syntax error: " ++ e)
  | .ok tree =>
    match validateAst tree with
    | (false, m) => (false, m)
    | (true, _) =>
      match validateStrings code with
      | (false, m) => (false, m)
      | (true, _) => (true, "")

/-- HTML indicators of `_validate_web_code` (lines 88-90). -/
def htmlIndicators : List String :=
  ["<html", "<head", "<body", "<div", "<p", "<h1", "<h2", "<h3", "<h4",
   "<h5", "<h6", "<span", "<a", "<img", "<ul", "<ol", "<li", "<table",
   "<tr", "<td", "<th", "<form", "<input", "<button", "<select",
   "<option", "<textarea", "<label"]

/-- CSS indicators (lines 93-94). -/
def cssIndicators : List String :=
  ["color:", "background:", "margin:", "padding:", "font-", "border:",
   "width:", "height:", "display:", "position:", "float:", "text-align:",
   "font-size:", "font-weight:"]

/-- JavaScript indicators (lines 97-98). -/
def jsIndicators : List String :=
  ["function", "var ", "let ", "const ", "if (", "for (", "while (",
   "return", "alert(", "console.log", "document.", "window.",
   "addEventListener", "onclick", "onload"]

/-- Python's substring test `needle in hay`. -/
def containsStr (hay needle : String) : Bool :=
  (List.range (hay.data.length + 1)).any fun i =>
    needle.data.isPrefixOf (hay.data.drop i)

/-- `_validate_web_code` (lines 55-113): reject empty (after `strip`) code,
oversize code, and code matching one of the dangerous web patterns; every
other text is accepted — the indicator scan only chooses between two
branches that both return `(True, "")`. -/
def validateWebCode (code : String) : Bool × String :=
  if pyStrip code == "" then (false, "Empty code")
  else if code.length > maxCodeLength then (false, tooLongMsg)
  else if webPatterns.any (fun p => regexSearch p code) then
    (false, "Extremely dangerous web code detected")
  else
    let lower := pyLower code
    let hasHtml := htmlIndicators.any (fun i => containsStr lower i)
    let hasCss := cssIndicators.any (fun i => containsStr lower i)
    let hasJs := jsIndicators.any (fun i => containsStr lower i)
    if hasHtml || hasCss || hasJs then (true, "") else (true, "")

/-- `validate_code` (lines 32-53): size limit first, then the web path for
language `"webdev"`, and the Python path for every other language tag. -/
def validateCode (parseResult : Except String PyNode) (code : String)
    (language : String) : Bool × String :=
  if code.length > maxCodeLength then (false, tooLongMsg)
  else if language == "webdev" then validateWebCode code
  else validatePythonCode parseResult code

/-! ### Claim-level deny-list predicates (C1) -/

/-- An `ast.Import` alias naming a deny-listed module (directly or through
its first dotted component). -/
def importBadName (nm : String) : Bool :=
  blockedImports.contains nm || blockedImports.contains (pyHead nm)

/-- A call expression whose callee is a deny-listed builtin name or a
deny-listed attribute. -/
def callBad : PyNode → Bool
  | .name id => blockedFunctions.contains id
  | .attr _ a => blockedAttributes.contains a
  | _ => false

/-- The source text contains an import of a deny-listed module, a direct call
to a deny-listed builtin name, or an access to a deny-listed reflective
attribute — the three categories of deny-listed constructs named by the
specification. -/
def containsDenylisted : PyNode → Bool
  | .nil => false
  | .seq a b => containsDenylisted a || containsDenylisted b
  | .module b => containsDenylisted b
  | .importStmt ns => ns.any importBadName
  | .importFrom m ns =>
      (match m with
       | some mm => blockedImports.contains (pyHead mm)
       | none => false) || ns.any (blockedImports.contains ·)
  | .exprStmt v => containsDenylisted v
  | .assign t v => containsDenylisted t || containsDenylisted v
  | .call f args => callBad f || containsDenylisted f || containsDenylisted args
  | .attr v a => blockedAttributes.contains a || containsDenylisted v
  | .name _ => false
  | .const => false

/-- The secondary string sweep of `_validate_strings` flags the text. -/
def stringsFlagged (code : String) : Bool :=
  fileOperations.any (fun p => regexSearch p code) ||
  systemCommands.any (fun p => regexSearch p code) ||
  networkOperations.any (fun p => regexSearch p code)

/-! ### Java entry-point class name and temp-file paths (C7, C9) -/

/-- Split a character list at every character satisfying the predicate
(keeping empty pieces). -/
def splitPredList (p : Char → Bool) : List Char → List (List Char)
  | [] => [[]]
  | d :: ds =>
    match splitPredList p ds with
    | [] => [[]]
    | g :: gs => if p d then [] :: g :: gs else (d :: g) :: gs

/-- Python's no-argument `str.split()`: split on whitespace runs, dropping
empty pieces. -/
def pyWhitespaceSplit (s : String) : List String :=
  ((splitPredList Char.isWhitespace s.data).map String.mk).filter
    (fun t => t != "")

/-- Python's `token.split('\x7b')[0].strip()` applied to a name token. -/
def braceTrunc (s : String) : String :=
  pyStrip ((splitOnChar '\x7b' s).headD "")

/-- The class-name scan of `_execute_java_code` (executor_service.py lines
210-224): for each line, after stripping, a line starting with
`public class` that contains `\x7b` yields token 2 (truncated at the brace),
otherwise a line starting with `class` that contains `\x7b` yields token 1;
a matching line without enough tokens is skipped, and if no line matches
the default `Main` stands. -/
def classNameFromLines : List String → String
  | [] => "Main"
  | l :: ls =>
    if strStartsWith (pyStrip l) "public class"
        && (pyStrip l).data.contains '\x7b' then
      (if (pyWhitespaceSplit (pyStrip l)).length ≥ 3 then
        braceTrunc ((pyWhitespaceSplit (pyStrip l)).getD 2 "")
      else classNameFromLines ls)
    else if strStartsWith (pyStrip l) "class"
        && (pyStrip l).data.contains '\x7b' then
      (if (pyWhitespaceSplit (pyStrip l)).length ≥ 2 then
        braceTrunc ((pyWhitespaceSplit (pyStrip l)).getD 1 "")
      else classNameFromLines ls)
    else classNameFromLines ls

/-- The entry-point class name used by `_execute_java_code`
(`code.split('\n')` fed to the scan above). -/
def extractJavaClassName (code : String) : String :=
  classNameFromLines (splitOnChar '\n' code)

/-- The behaviour C7 claims, word for word: scan the (stripped) source lines
for one starting with a class declaration keyword and take that first
declared class's name; only if no such line exists default to `Main`.  (No
requirement that the opening brace share the line.) -/
def claimedLineClassName (l : String) : Option String :=
  if strStartsWith l "public class" && (pyWhitespaceSplit l).length ≥ 3 then
    some (braceTrunc ((pyWhitespaceSplit l).getD 2 ""))
  else if strStartsWith l "class" && (pyWhitespaceSplit l).length ≥ 2 then
    some (braceTrunc ((pyWhitespaceSplit l).getD 1 ""))
  else none

/-- The class name C7 claims is extracted. -/
def claimedJavaClassName (code : String) : String :=
  (((splitOnChar '\n' code).map pyStrip).findSome? claimedLineClassName).getD
    "Main"

/-- Per-line matcher actually implemented by the scan: the keyword must share
the line with an opening brace, and the token count must suffice, following
the `if`/`elif` order of the source. -/
def javaLineClassName (l : String) : Option String :=
  if strStartsWith l "public class" && l.data.contains '\x7b' then
    (if (pyWhitespaceSplit l).length ≥ 3 then
      some (braceTrunc ((pyWhitespaceSplit l).getD 2 ""))
    else none)
  else if strStartsWith l "class" && l.data.contains '\x7b' then
    (if (pyWhitespaceSplit l).length ≥ 2 then
      some (braceTrunc ((pyWhitespaceSplit l).getD 1 ""))
    else none)
  else none

/-- `tempfile.gettempdir()`, modelled as the fixed POSIX default. -/
def tempDirRoot : String := "/tmp"

/-- The Java temp-file path (`_execute_java_code` line 229):
`os.path.join(tempfile.gettempdir(), f"{class_name}.java")` — a
deterministic function of the extracted class name, with no per-request
random identifier. -/
def javaTempFilePath (code : String) : String :=
  tempDirRoot ++ "/" ++ extractJavaClassName code ++ ".java"

/-- The Python temp-file path created by
`tempfile.NamedTemporaryFile(suffix='.py')` (`_execute_python_code` lines
85-92): the library inserts a per-request random token into the name. -/
def pythonTempFilePath (randomToken : String) : String :=
  tempDirRoot ++ "/tmp" ++ randomToken ++ ".py"

/-- `settings.REACT_TEMP_DIR` (config.py line 22). -/
def reactTempRoot : String := "/app/react_temp"

/-- The per-request react project directory (`execute_react_project` lines
654-657): `REACT_TEMP_DIR/react_spa_{uuid4().hex[:8]}` with a random
project id. -/
def reactProjectDirPath (projectId : String) : String :=
  reactTempRoot ++ "/react_spa_" ++ projectId

/-! ### Route capture (C6) -/

/-- What one iteration of the route loop of `_capture_react_routes` stores
for a route: the captured page HTML on success, and on any exception the
marker `f"Error capturing route: {str(e)}"` (line 1337).  The capture of a
single route — navigation, polling and `page.content()` — is external
browser behaviour, so it is the `attempt` parameter. -/
def routeCaptureValue (attempt : String → Except String String)
    (route : String) : String :=
  match attempt route with
  | .ok html => html
  | .error e => "Error capturing route: " ++ e

/-- Python dict assignment `screenshots[route] = v`: overwrite in place when
the key exists, else append (insertion order preserved). -/
def dictInsert (k v : String) (d : List (String × String)) :
    List (String × String) :=
  if d.any (fun p => p.1 == k) then
    d.map (fun p => if p.1 == k then (k, v) else p)
  else d ++ [(k, v)]

/-- The route loop of `_capture_react_routes` (executor_service.py lines
1189-1340): starting from the empty dict, every requested route is processed
in order and stores either its HTML or its error marker; a failing route
does not abort the loop. -/
def captureReactRoutes (routes : List String)
    (attempt : String → Except String String) : List (String × String) :=
  routes.foldl
    (fun shots r => dictInsert r (routeCaptureValue attempt r) shots) []

/-- Concrete capture behaviour used by the C6 witness: the `/about` route
fails, every other route renders. -/
def sampleAttempt (r : String) : Except String String :=
  if r == "/about" then .error "net::ERR_CONNECTION_REFUSED"
  else .ok "<html></html>"

/-! ### Container and temp-directory lifecycle (C3) -/

/-- A container record as the docker daemon keeps it (`docker ps -a`):
name and whether it is running. -/
structure ContainerRec where
  name : String
  running : Bool
deriving DecidableEq, Repr

/-- Observable shared state: the containers known to the docker daemon and
the directories existing under the temp roots. -/
structure SysState where
  containers : List ContainerRec
  dirs : List String
deriving DecidableEq, Repr

/-- `docker stop NAME`: a container of that name stops running; its record
is NOT removed from the daemon. -/
def dockerStop (n : String) (st : SysState) : SysState :=
  { st with containers := st.containers.map fun c =>
      if c.name == n then { c with running := false } else c }

/-- `docker rm -f NAME` (the preamble of `_start_react_container`, lines
916-923): the record is removed entirely. -/
def dockerRmForce (n : String) (st : SysState) : SysState :=
  { st with containers := st.containers.filter fun c => !(c.name == n) }

/-- `docker run -d --name NAME ...` (lines 963-978; the invocation carries
no `--rm` flag). -/
def dockerRunDetached (n : String) (st : SysState) : SysState :=
  { st with containers := st.containers ++ [⟨n, true⟩] }

/-- `os.makedirs(d, exist_ok=True)` (lines 652, 657). -/
def makeDirs (d : String) (st : SysState) : SysState :=
  if st.dirs.contains d then st else { st with dirs := st.dirs ++ [d] }

/-- `shutil.rmtree(d)` (line 1361). -/
def removeTree (d : String) (st : SysState) : SysState :=
  { st with dirs := st.dirs.filter fun x => !(x == d) }

/-- `_cleanup_react_project` (lines 1342-1365): when a container name is
known, `docker stop` it (there is no `docker rm` here); when the working
directory is set and exists, `shutil.rmtree` it.  Both blocks swallow their
own exceptions (modelled as succeeding). -/
def cleanupReactProject (tempDir containerName : Option String)
    (st : SysState) : SysState :=
  let st1 := match containerName with
    | some n => dockerStop n st
    | none => st
  match tempDir with
  | some d => if st1.dirs.contains d then removeTree d st1 else st1
  | none => st1

/-- How far the body of `execute_react_project` got before its exit: an
exception before the container start (port search, file writing), the
`docker run` itself failing (after the same-name `docker rm -f` preamble),
or the container having started (capture success and capture failure leave
the same container/directory state). -/
inductive ReactExit where
  | beforeStart
  | startFailed
  | afterStart
deriving DecidableEq, Repr

/-- Container/directory effect of the body of `execute_react_project` after
the project directory was made, by exit case. -/
def reactBodyState (projectId : String) (ex : ReactExit) (st1 : SysState) :
    SysState :=
  match ex with
  | .beforeStart => st1
  | .startFailed => dockerRmForce ("react_spa_" ++ projectId) st1
  | .afterStart =>
      dockerRunDetached ("react_spa_" ++ projectId)
        (dockerRmForce ("react_spa_" ++ projectId) st1)

/-- State effect of one `execute_react_project` call (lines 630-705): create
the project directory, run the body as far as the exit case says, and — in
`finally` — always run `_cleanup_react_project`. -/
def executeReactProjectState (projectId : String) (ex : ReactExit)
    (st : SysState) : SysState :=
  cleanupReactProject (some (reactProjectDirPath projectId))
    (some ("react_spa_" ++ projectId))
    (reactBodyState projectId ex
      (makeDirs (reactProjectDirPath projectId) st))

/-! ### Entry points and failure normalization (C4) -/

/-- The 5-tuple returned by `execute_react_project`:
`(success, output, logs, exit_code, screenshots_by_route)`. -/
structure ReactResult where
  success : Bool
  output : String
  logs : String
  exitCode : Int
  screenshots : List (String × String)
deriving DecidableEq, Repr

/-- Outcome of the body of `execute_react_project`: all routes captured, or
any exception anywhere in the body (no free port, container start failure,
capture setup crash), caught by the `except Exception as e` at lines
701-703. -/
inductive ReactOutcome where
  | captured (shots : List (String × String))
  | failed (e : String)
deriving DecidableEq, Repr

/-- `execute_react_project` result normalization (lines 695-704): success
returns the fixed success strings and exit code 0; every caught exception
returns `(False, msg, msg, 1, \x7b\x7d)` with
`msg = f"React project execution failed: {e}"`. -/
def executeReactProject (outcome : ReactOutcome) : ReactResult :=
  match outcome with
  | .captured shots =>
      ⟨true, "All routes captured successfully",
        "All routes captured successfully", 0, shots⟩
  | .failed e =>
      ⟨false, "React project execution failed: " ++ e,
        "React project execution failed: " ++ e, 1, []⟩

/-- Outcomes of the external steps each language path can take; `executeCode`
selects the relevant one by language. -/
structure ExecEnv where
  python : StepOutcome
  cCompile : StepOutcome
  cRun : StepOutcome
  javaCompile : StepOutcome
  javaRun : StepOutcome
  htmlRender : Except String (String × String)
  nodeServe : Except String (String × String)
  reactProject : ReactOutcome
deriving Repr

/-- `_execute_html_code` (lines 413-466): render and return
`(True, html, logs, 0)`; any exception yields
`(False, "", f"HTML execution error: {e}", 1)`. -/
def executeHtmlCode (r : Except String (String × String)) : ExecResult :=
  match r with
  | .ok (html, logs) => ⟨true, html, logs, 0⟩
  | .error e => ⟨false, "", "HTML execution error: " ++ e, 1⟩

/-- `_execute_node_code` (lines 525-628): analogous with
`f"Node.js execution error: {e}"`. -/
def executeNodeCode (r : Except String (String × String)) : ExecResult :=
  match r with
  | .ok (html, logs) => ⟨true, html, logs, 0⟩
  | .error e => ⟨false, "", "Node.js execution error: " ++ e, 1⟩

/-- The simple-code detection of `_execute_react_code` (lines 473-486). -/
def isSimpleReactCode (code : String) : Bool :=
  !(containsStr code "import React" || containsStr code "from \"react\"" ||
    containsStr code "from 'react'" || containsStr code "<" ||
    containsStr code "export default" || containsStr code "ReactDOM" ||
    containsStr code "BrowserRouter" || containsStr code "react-router" ||
    containsStr code "useState" || containsStr code "useEffect" ||
    containsStr code "className=" || containsStr (pyLower code) "jsx")

/-- `_execute_react_code` (lines 468-524): simple code goes to the node
path; full React code delegates to `execute_react_project` and converts its
5-tuple to the 4-tuple shape (lines 503-519). -/
def executeReactCode (code : String) (env : ExecEnv) : ExecResult :=
  if isSimpleReactCode code then executeNodeCode env.nodeServe
  else
    let r := executeReactProject env.reactProject
    let outputHtml :=
      if r.screenshots ≠ [] then
        (if r.output ≠ "" then r.output else "React app rendered successfully")
      else (if r.output ≠ "" then r.output else "React app executed")
    ⟨r.success, outputHtml, r.logs, r.exitCode⟩

/-- `_execute_web_code` (lines 393-411). -/
def executeWebCode (code language : String) (env : ExecEnv) : ExecResult :=
  if language == "html" then executeHtmlCode env.htmlRender
  else if language == "react" then executeReactCode code env
  else if language == "node" then executeNodeCode env.nodeServe
  else ⟨false, "", "Unsupported web language: " ++ language, 1⟩

/-- `_subprocess_execute` (lines 48-77): dispatch to the C, Java or Python
path — each of which already catches its own exceptions. -/
def subprocessExecute (code language : String) (env : ExecEnv) : ExecResult :=
  if language == "c" then executeCCode env.cCompile env.cRun
  else if language == "java" then executeJavaCode env.javaCompile env.javaRun
  else executePythonCode env.python

/-- `execute_code` (lines 29-46): web languages go to the web path,
everything else to the subprocess path. -/
def executeCode (code language : String) (env : ExecEnv) : ExecResult :=
  if language == "html" || language == "react" || language == "node" then
    executeWebCode code language env
  else subprocessExecute code language env

/-- A fixed all-successful environment used by the C4 witness. -/
def sampleEnv : ExecEnv :=
  ⟨.ok ⟨1, ⟨"", "", 0⟩⟩, .ok ⟨1, ⟨"", "", 0⟩⟩, .ok ⟨1, ⟨"", "", 0⟩⟩,
    .ok ⟨1, ⟨"", "", 0⟩⟩, .ok ⟨1, ⟨"", "", 0⟩⟩, .ok ("", ""), .ok ("", ""),
    .captured []⟩

end Labmate

/-! ## Theorems -/

namespace Labmate

/-- A string with a non-empty literal prefix is non-empty. -/
theorem strAppend_ne_empty (s t : String) (h : s.length ≠ 0) : s ++ t ≠ "" := by
  intro heq
  have hl := congrArg String.length heq
  rw [String.length_append] at hl
  simp at hl
  exact h hl.1

theorem awaitRunStep_timeout (p : Proc) (h : p.duration > runTimeout) :
    awaitRunStep p = timeoutResult := by
  unfold awaitRunStep timeoutResult
  simp [Nat.not_le.mpr h]

/-- C2 counterexample: a C execution whose compiler child process runs for 100
seconds (well beyond the 30-second timeout) is not killed and does not yield
exit code 124 — the compile step is awaited without a timeout, so the call
blocks for the full 101 seconds and then reports ordinary success. -/
theorem c2_counterexample :
    (Proc.mk 100 ⟨"", "", 0⟩).duration > runTimeout ∧
    executeCCode (.ok ⟨100, ⟨"", "", 0⟩⟩) (.ok ⟨1, ⟨"ok\n", "", 0⟩⟩)
      = ⟨true, "ok\n", "", 0⟩ ∧
    executeCElapsed ⟨100, ⟨"", "", 0⟩⟩ ⟨1, ⟨"ok\n", "", 0⟩⟩ = 101 := by
  refine ⟨by decide, ?_, by decide⟩
  rfl

/-- C2 (amended): the 30-second timeout guards the runtime child process of
the Python, C and Java paths: whenever that process runs longer than 30
seconds it is killed and the fixed tuple
`(False, "", "Execution timeout (30s limit)", 124)` is returned, and the
run step occupies at most 30 seconds of wall-clock time.  (The compile child
processes of the C and Java paths are awaited without any timeout.) -/
theorem c2_amended (p cp : Proc) (hp : p.duration > runTimeout)
    (hcp : cp.result.exitCode = 0) :
    executePythonCode (.ok p) = timeoutResult ∧
    executeCCode (.ok cp) (.ok p) = timeoutResult ∧
    executeJavaCode (.ok cp) (.ok p) = timeoutResult ∧
    executePythonElapsed p = runTimeout ∧
    executeCElapsed cp p = cp.duration + runTimeout := by
  have hrun := awaitRunStep_timeout p hp
  refine ⟨hrun, ?_, ?_, ?_, ?_⟩
  · simp [executeCCode, hcp, hrun]
  · simp [executeJavaCode, hcp, hrun]
  · simp [executePythonElapsed, Nat.min_eq_right (Nat.le_of_lt hp)]
  · simp [executeCElapsed, hcp, Nat.min_eq_right (Nat.le_of_lt hp)]

/-- C2 witness: a Python-path process running 31 seconds yields the timeout
tuple, and likewise for the run step of the C and Java paths. -/
theorem c2_witness :
    executePythonCode (.ok ⟨31, ⟨"", "", 0⟩⟩) = timeoutResult ∧
    executeJavaCode (.ok ⟨1, ⟨"", "", 0⟩⟩) (.ok ⟨31, ⟨"", "", 0⟩⟩) = timeoutResult := by
  have h := c2_amended ⟨31, ⟨"", "", 0⟩⟩ ⟨1, ⟨"", "", 0⟩⟩ (by decide) (by decide)
  exact ⟨h.1, h.2.2.1⟩

/-- C5: for the compiled languages (C and Java), a compiler child process
exiting non-zero makes the runner return `success = false`, stderr carrying
the compiler diagnostics under the non-empty `Compilation error:` banner, and
the compiler's own non-zero exit code; the result does not depend on the
runtime step at all — the compiled program is never executed. -/
theorem c5_compile_failure (cp : Proc) (r r' : StepOutcome)
    (h : cp.result.exitCode ≠ 0) :
    executeCCode (.ok cp) r
      = ⟨false, "", "Compilation error: " ++ cp.result.stderr, cp.result.exitCode⟩ ∧
    executeJavaCode (.ok cp) r
      = ⟨false, "", "Compilation error: " ++ cp.result.stderr, cp.result.exitCode⟩ ∧
    executeCCode (.ok cp) r = executeCCode (.ok cp) r' ∧
    executeJavaCode (.ok cp) r = executeJavaCode (.ok cp) r' ∧
    ("Compilation error: " ++ cp.result.stderr) ≠ "" := by
  refine ⟨?_, ?_, ?_, ?_, strAppend_ne_empty _ _ (by decide)⟩ <;>
    simp [executeCCode, executeJavaCode, h]

/-! ### Validator lemmas -/

theorem orElse_eq_some_cases {α : Type} (a b : Option α) (m : α)
    (h : (a <|> b) = some m) : a = some m ∨ b = some m := by
  cases a with
  | none => exact .inr h
  | some x => exact .inl h

theorem isSome_orElse {α : Type} (a b : Option α) :
    (a <|> b).isSome = (a.isSome || b.isSome) := by
  cases a <;> rfl

theorem isSome_ite_some {α : Type} {b : Bool} {x : α} :
    (if b then some x else none).isSome = b := by
  cases b <;> rfl

theorem importAliasCheck_ne_empty :
    ∀ ns m, importAliasCheck ns = some m → m ≠ "" := by
  intro ns
  induction ns with
  | nil => intro m h; simp [importAliasCheck] at h
  | cons nm rest ih =>
    intro m h
    unfold importAliasCheck at h
    by_cases h1 : blockedImports.contains nm = true
    · rw [if_pos h1] at h
      cases h
      exact strAppend_ne_empty _ _ (by decide)
    · rw [if_neg h1] at h
      by_cases h2 : blockedImports.contains (pyHead nm) = true
      · rw [if_pos h2] at h
        cases h
        exact strAppend_ne_empty _ _ (by decide)
      · rw [if_neg h2] at h
        exact ih m h

theorem fromAliasCheck_ne_empty :
    ∀ ns m, fromAliasCheck ns = some m → m ≠ "" := by
  intro ns
  induction ns with
  | nil => intro m h; simp [fromAliasCheck] at h
  | cons nm rest ih =>
    intro m h
    unfold fromAliasCheck at h
    by_cases h1 : blockedImports.contains nm = true
    · rw [if_pos h1] at h
      cases h
      exact strAppend_ne_empty _ _ (by decide)
    · rw [if_neg h1] at h
      exact ih m h

theorem fromModuleCheck_ne_empty :
    ∀ mo m, fromModuleCheck mo = some m → m ≠ "" := by
  intro mo m h
  cases mo with
  | none => simp [fromModuleCheck] at h
  | some mm =>
    simp only [fromModuleCheck] at h
    by_cases h1 : blockedImports.contains (pyHead mm) = true
    · rw [if_pos h1] at h
      cases h
      exact strAppend_ne_empty _ _ (by decide)
    · rw [if_neg h1] at h
      cases h

theorem callFuncCheck_ne_empty :
    ∀ f m, callFuncCheck f = some m → m ≠ "" := by
  intro f m h
  cases f <;> simp [callFuncCheck] at h
  case name id => exact h.2 ▸ strAppend_ne_empty _ _ (by decide)
  case attr v a => exact h.2 ▸ strAppend_ne_empty _ _ (by decide)

/-- Every violation message produced by the AST walk is non-empty. -/
theorem astViolation_ne_empty :
    ∀ t m, astViolation t = some m → m ≠ "" := by
  intro t
  induction t with
  | nil => intro m h; simp [astViolation] at h
  | seq a b ia ib =>
    intro m h
    simp only [astViolation] at h
    rcases orElse_eq_some_cases _ _ _ h with h' | h'
    exacts [ia m h', ib m h']
  | module b ib => intro m h; simp only [astViolation] at h; exact ib m h
  | importStmt ns => intro m h; exact importAliasCheck_ne_empty ns m h
  | importFrom mo ns =>
    intro m h
    simp only [astViolation] at h
    rcases orElse_eq_some_cases _ _ _ h with h' | h'
    exacts [fromModuleCheck_ne_empty mo m h', fromAliasCheck_ne_empty ns m h']
  | exprStmt v iv => intro m h; simp only [astViolation] at h; exact iv m h
  | assign t v it iv =>
    intro m h
    simp only [astViolation] at h
    rcases orElse_eq_some_cases _ _ _ h with h' | h'
    exacts [it m h', iv m h']
  | call f args ihf iha =>
    intro m h
    simp only [astViolation] at h
    rcases orElse_eq_some_cases _ _ _ h with h' | h'
    · exact callFuncCheck_ne_empty f m h'
    · rcases orElse_eq_some_cases _ _ _ h' with h'' | h''
      exacts [ihf m h'', iha m h'']
  | attr v a iv =>
    intro m h
    simp only [astViolation] at h
    rcases orElse_eq_some_cases _ _ _ h with h' | h'
    · split at h'
      · cases h'; exact strAppend_ne_empty _ _ (by decide)
      · cases h'
    · exact iv m h'
  | name id => intro m h; simp [astViolation] at h
  | const => intro m h; simp [astViolation] at h

theorem importAliasCheck_isSome (ns : List String) :
    (importAliasCheck ns).isSome = ns.any importBadName := by
  induction ns with
  | nil => rfl
  | cons nm rest ih =>
    unfold importAliasCheck
    rw [List.any_cons]
    by_cases h1 : blockedImports.contains nm = true
    · rw [if_pos h1]
      simp only [importBadName, h1, Option.isSome_some, Bool.true_or]
    · have h1' : blockedImports.contains nm = false := by simpa using h1
      rw [if_neg h1]
      by_cases h2 : blockedImports.contains (pyHead nm) = true
      · rw [if_pos h2]
        simp only [importBadName, h1', h2, Option.isSome_some, Bool.false_or,
          Bool.true_or]
      · have h2' : blockedImports.contains (pyHead nm) = false := by simpa using h2
        rw [if_neg h2, ih]
        simp only [importBadName, h1', h2', Bool.or_self, Bool.false_or]

theorem fromAliasCheck_isSome (ns : List String) :
    (fromAliasCheck ns).isSome = ns.any (blockedImports.contains ·) := by
  induction ns with
  | nil => rfl
  | cons nm rest ih =>
    unfold fromAliasCheck
    rw [List.any_cons]
    by_cases h1 : blockedImports.contains nm = true
    · rw [if_pos h1]
      simp only [h1, Option.isSome_some, Bool.true_or]
    · have h1' : blockedImports.contains nm = false := by simpa using h1
      rw [if_neg h1, ih]
      simp only [h1', Bool.false_or]

theorem callFuncCheck_isSome (f : PyNode) :
    (callFuncCheck f).isSome = callBad f := by
  cases f <;> simp only [callFuncCheck, callBad, isSome_ite_some,
    Option.isSome_none]

/-- The AST walk finds a violation exactly when the tree contains one of the
three categories of deny-listed constructs. -/
theorem astViolation_isSome (t : PyNode) :
    (astViolation t).isSome = containsDenylisted t := by
  induction t with
  | nil => rfl
  | seq a b ia ib =>
    simp only [astViolation, containsDenylisted, isSome_orElse, ia, ib]
  | module b ib => simp only [astViolation, containsDenylisted, ib]
  | importStmt ns =>
    simp only [astViolation, containsDenylisted, importAliasCheck_isSome]
  | importFrom mo ns =>
    cases mo <;>
      simp only [astViolation, containsDenylisted, isSome_orElse,
        fromAliasCheck_isSome, fromModuleCheck, isSome_ite_some,
        Option.isSome_none, Bool.false_or]
  | exprStmt v iv => simp only [astViolation, containsDenylisted, iv]
  | assign t v it iv =>
    simp only [astViolation, containsDenylisted, isSome_orElse, it, iv]
  | call f args ihf iha =>
    simp only [astViolation, containsDenylisted, isSome_orElse,
      callFuncCheck_isSome, ihf, iha, Bool.or_assoc]
  | attr v a iv =>
    simp only [astViolation, containsDenylisted, isSome_orElse,
      isSome_ite_some, iv]
  | name id => rfl
  | const => rfl

/-- C1 counterexample: `a.read()` parses, is within the size limit and
contains no deny-listed import, no call to a deny-listed builtin name and no
access to a deny-listed reflective attribute (`read` is on none of the deny
lists), yet `validate_code` rejects it — the secondary string sweep matches
`\.read\s*\(`. -/
theorem c1_counterexample :
    containsDenylisted
      (PyNode.module (.exprStmt (.call (.attr (.name "a") "read") .nil)))
      = false ∧
    "a.read()".length ≤ maxCodeLength ∧
    validateCode
      (.ok (PyNode.module (.exprStmt (.call (.attr (.name "a") "read") .nil))))
      "a.read()" "python"
      = (false, "File operations are not allowed") := by
  refine ⟨by decide, by decide, by decide⟩

/-- C1 (amended): for every non-`webdev` language tag, a parsed source whose
tree contains a deny-listed import, a call to a deny-listed builtin name or
an access to a deny-listed reflective attribute is rejected with a non-empty
reason; and a parsed source within the size limit that is free of all
deny-listed constructs AND free of matches of the secondary string-sweep
patterns (file-operation, system-command and network-operation regexes) is
accepted with `allowed = true`. -/
theorem c1_amended (t : PyNode) (code lang : String) (hlang : lang ≠ "webdev") :
    (containsDenylisted t = true →
      (validateCode (.ok t) code lang).1 = false ∧
      (validateCode (.ok t) code lang).2 ≠ "") ∧
    (code.length ≤ maxCodeLength → containsDenylisted t = false →
      stringsFlagged code = false →
      validateCode (.ok t) code lang = (true, "")) := by
  have hbeq : (lang == "webdev") = false := beq_eq_false_iff_ne.mpr hlang
  constructor
  · intro hd
    by_cases hlen : code.length > maxCodeLength
    · have hv : validateCode (.ok t) code lang = (false, tooLongMsg) := by
        simp [validateCode, hlen]
      rw [hv]
      exact ⟨rfl, by decide⟩
    · obtain ⟨m, hm⟩ : ∃ m, astViolation t = some m := by
        have hs := astViolation_isSome t
        rw [hd] at hs
        exact Option.isSome_iff_exists.mp hs
      have hv : validateCode (.ok t) code lang = (false, m) := by
        simp [validateCode, hlen, hbeq, validatePythonCode, validateAst, hm]
      rw [hv]
      exact ⟨rfl, astViolation_ne_empty t m hm⟩
  · intro hlen hd hs
    have hlen' : ¬ code.length > maxCodeLength := Nat.not_lt.mpr hlen
    have hnone : astViolation t = none := by
      have hi := astViolation_isSome t
      rw [hd] at hi
      exact Option.not_isSome_iff_eq_none.mp (by simp [hi])
    have hsplit := hs
    simp only [stringsFlagged, Bool.or_eq_false_iff] at hsplit
    simp [validateCode, hlen', hbeq, validatePythonCode, validateAst, hnone,
      validateStrings, hsplit.1.1, hsplit.1.2, hsplit.2]

/-- C1 witness: `x = 1` (clean tree, clean text) is accepted on the Python
path. -/
theorem c1_witness :
    validateCode (.ok (PyNode.module (.assign (.name "x") .const)))
      "x = 1" "python" = (true, "") :=
  (c1_amended (PyNode.module (.assign (.name "x") .const)) "x = 1" "python"
    (by decide)).2 (by decide) (by decide) (by decide)

/-- C8 counterexample: the empty source neither exceeds the size limit nor
matches any of the enumerated dangerous patterns, yet `validate_code` with
language `webdev` rejects it as `Empty code`. -/
theorem c8_counterexample :
    validateCode (.ok .nil) "" "webdev" = (false, "Empty code") ∧
    ("" : String).length ≤ maxCodeLength ∧
    webPatterns.any (fun p => regexSearch p "") = false := by
  refine ⟨by decide, by decide, by decide⟩

/-- C8 (amended): for language tag `webdev`, validation rejects exactly the
source texts that are empty after stripping whitespace, exceed the size
limit, or match one of the enumerated dangerous patterns; every other source
text is accepted with `allowed = true`. -/
theorem c8_amended (code : String) (parseRes : Except String PyNode) :
    (validateCode parseRes code "webdev").1 = false ↔
      (pyStrip code = "" ∨ code.length > maxCodeLength ∨
        webPatterns.any (fun p => regexSearch p code) = true) := by
  unfold validateCode validateWebCode
  by_cases h1 : code.length > maxCodeLength
  · simp [h1]
  · by_cases h2 : pyStrip code = ""
    · simp [h1, h2]
    · have h2' : (pyStrip code == "") = false := beq_eq_false_iff_ne.mpr h2
      by_cases h3 : webPatterns.any (fun p => regexSearch p code) = true
      · simp [h1, h2, h2', h3]
      · simp [h1, h2, h2', h3, ite_self]

/-- C10: for every language tag other than `webdev` — including `c` and
`java` — `validate_code` within the size limit applies the Python validation
path, and a source that the Python parser rejects yields `allowed = false`
with the non-empty `Syntax error:` verdict. -/
theorem c10_python_path (parseRes : Except String PyNode) (code e lang : String)
    (hlang : lang ≠ "webdev") :
    (code.length ≤ maxCodeLength →
      validateCode parseRes code lang = validatePythonCode parseRes code) ∧
    (validateCode (.error e) code lang).1 = false ∧
    (code.length ≤ maxCodeLength →
      validateCode (.error e) code lang = (false, "Syntax error: " ++ e)) ∧
    (validateCode (.error e) code lang).2 ≠ "" := by
  have hbeq : (lang == "webdev") = false := beq_eq_false_iff_ne.mpr hlang
  by_cases hlen : code.length > maxCodeLength
  · refine ⟨fun h => absurd hlen (Nat.not_lt.mpr h), ?_,
      fun h => absurd hlen (Nat.not_lt.mpr h), ?_⟩ <;>
      simp [validateCode, hlen, tooLongMsg]
  · refine ⟨fun _ => by simp [validateCode, hlen, hbeq], ?_, fun _ => ?_, ?_⟩ <;>
      simp [validateCode, hlen, hbeq, validatePythonCode]
    exact strAppend_ne_empty _ _ (by decide)

/-- C10 witness: a C source that is not valid Python is rejected by the
stand-alone validator with a syntax-error verdict. -/
theorem c10_witness :
    validateCode (.error "invalid syntax")
      "int main() \x7b return 0; \x7d" "c"
      = (false, "Syntax error: invalid syntax") :=
  (c10_python_path (.error "invalid syntax") "int main() \x7b return 0; \x7d"
    "invalid syntax" "c" (by decide)).2.2.1 (by decide)

/-- C5 witness: a gcc/javac process exiting 1 with a diagnostic produces the
compilation-error tuple regardless of the run step. -/
theorem c5_witness :
    executeCCode (.ok ⟨1, ⟨"", "error: expected ;", 1⟩⟩) (.ok ⟨1, ⟨"", "", 0⟩⟩)
      = ⟨false, "", "Compilation error: error: expected ;", 1⟩ ∧
    executeJavaCode (.ok ⟨1, ⟨"", "error: expected ;", 1⟩⟩) (.exn "never run")
      = ⟨false, "", "Compilation error: error: expected ;", 1⟩ := by
  have h := c5_compile_failure ⟨1, ⟨"", "error: expected ;", 1⟩⟩
    (.ok ⟨1, ⟨"", "", 0⟩⟩) (.exn "never run") (by decide)
  exact ⟨h.1, (h.2.2.2.1) ▸ h.2.1⟩

/-! ### C7 — Java class-name extraction -/

/-- The scan equals the first-matching-line characterization: the class name
comes from the first stripped line that starts with a class declaration
keyword, contains an opening brace on that same line and has enough
whitespace tokens; with no such line the default is `Main`. -/
theorem classNameFromLines_eq (ls : List String) :
    classNameFromLines ls
      = ((ls.map pyStrip).findSome? javaLineClassName).getD "Main" := by
  induction ls with
  | nil => rfl
  | cons l ls ih =>
    by_cases h1 : strStartsWith (pyStrip l) "public class" = true
        ∧ '\x7b' ∈ (pyStrip l).data
    · obtain ⟨h1a, h1m⟩ := h1
      by_cases h2 : (pyWhitespaceSplit (pyStrip l)).length ≥ 3
      · simp [classNameFromLines, javaLineClassName, List.findSome?_cons,
          h1a, h1m, h2]
      · simp [classNameFromLines, javaLineClassName, List.findSome?_cons,
          h1a, h1m, h2, ih]
    · by_cases h3 : strStartsWith (pyStrip l) "class" = true
          ∧ '\x7b' ∈ (pyStrip l).data
      · obtain ⟨h3a, h3m⟩ := h3
        have h1a : ¬ strStartsWith (pyStrip l) "public class" = true :=
          fun ha => h1 ⟨ha, h3m⟩
        by_cases h4 : (pyWhitespaceSplit (pyStrip l)).length ≥ 2
        · simp [classNameFromLines, javaLineClassName, List.findSome?_cons,
            h1a, h3a, h3m, h4]
        · simp [classNameFromLines, javaLineClassName, List.findSome?_cons,
            h1a, h3a, h3m, h4, ih]
      · simp [classNameFromLines, javaLineClassName, List.findSome?_cons,
          h1, h3, ih]

/-- C7 counterexample: for `class Foo` with the opening brace on the next
line, the code falls back to `Main` although the first declared class is
`Foo` — the scan requires the brace on the declaration line itself. -/
theorem c7_counterexample :
    extractJavaClassName "class Foo\n\x7b\n\x7d" = "Main" ∧
    claimedJavaClassName "class Foo\n\x7b\n\x7d" = "Foo" ∧
    extractJavaClassName "class Foo\n\x7b\n\x7d"
      ≠ claimedJavaClassName "class Foo\n\x7b\n\x7d" := by
  refine ⟨by decide, by decide, by decide⟩

/-- C7 (amended): the entry-point class name is taken from the first stripped
source line that starts with a class declaration keyword AND contains the
opening brace on that same line (with enough whitespace-separated tokens),
by taking the token after the keyword truncated at the brace; if no such
line exists — in particular when every class declaration has its brace on a
later line — the fixed default `Main` is assumed. -/
theorem c7_amended (code : String) :
    extractJavaClassName code
      = (((splitOnChar '\n' code).map pyStrip).findSome?
          javaLineClassName).getD "Main" :=
  classNameFromLines_eq (splitOnChar '\n' code)

/-! ### C9 — temp-path collision behaviour -/

/-- Cancel a common prefix and suffix of string concatenations. -/
theorem strAffix_inj (pre suf a b : String)
    (h : pre ++ a ++ suf = pre ++ b ++ suf) : a = b := by
  have hd := congrArg String.data h
  simp only [String.data_append, List.append_assoc] at hd
  exact String.ext
    (List.append_cancel_right (List.append_cancel_left hd))

/-- C9 counterexample: two distinct Java sources declaring the same class
name are written to the SAME temp path — the Java path contains no random
identifier, so two (possibly concurrent) requests collide
deterministically. -/
theorem c9_counterexample :
    ("public class Main \x7b \x7d" : String)
        ≠ "public class Main \x7b int x; \x7d" ∧
    javaTempFilePath "public class Main \x7b \x7d"
      = javaTempFilePath "public class Main \x7b int x; \x7d" := by
  refine ⟨by decide, by decide⟩

/-- C9 (amended): the Python temp file and the react project directory embed
per-request random identifiers, so distinct identifiers give distinct paths;
the Java temp path is a deterministic function of the extracted class name
alone, so any two requests whose sources yield the same class name —
including two executions of the same source — use the same path. -/
theorem c9_amended (r1 r2 p1 p2 c1 c2 : String) :
    (r1 ≠ r2 → pythonTempFilePath r1 ≠ pythonTempFilePath r2) ∧
    (p1 ≠ p2 → reactProjectDirPath p1 ≠ reactProjectDirPath p2) ∧
    (extractJavaClassName c1 = extractJavaClassName c2 →
      javaTempFilePath c1 = javaTempFilePath c2) := by
  refine ⟨?_, ?_, ?_⟩
  · intro hne heq
    exact hne (strAffix_inj (tempDirRoot ++ "/tmp") ".py" r1 r2
      (by simpa [pythonTempFilePath, String.append_assoc] using heq))
  · intro hne heq
    have : (reactTempRoot ++ "/react_spa_" ++ p1 ++ "")
        = (reactTempRoot ++ "/react_spa_" ++ p2 ++ "") := by
      simpa [reactProjectDirPath] using heq
    exact hne (strAffix_inj (reactTempRoot ++ "/react_spa_") "" p1 p2 this)
  · intro h
    unfold javaTempFilePath
    rw [h]

/-- C9 witness: distinct random tokens give distinct Python temp files and
distinct react project directories, while two different Java sources with
the same class name share one temp path. -/
theorem c9_witness :
    pythonTempFilePath "abc123" ≠ pythonTempFilePath "xyz789" ∧
    reactProjectDirPath "aa11" ≠ reactProjectDirPath "bb22" ∧
    javaTempFilePath "public class Main \x7b \x7d"
      = javaTempFilePath "public class Main \x7b\x7d" := by
  obtain ⟨h1, h2, h3⟩ := c9_amended "abc123" "xyz789" "aa11" "bb22"
    "public class Main \x7b \x7d" "public class Main \x7b\x7d"
  exact ⟨h1 (by decide), h2 (by decide), h3 (by decide)⟩

/-! ### C6 — per-route capture mapping -/

theorem beq_false_symm (a b : String) (h : (a == b) = false) :
    (b == a) = false :=
  beq_eq_false_iff_ne.mpr fun he => beq_eq_false_iff_ne.mp h he.symm

theorem map_upd_keys (k v : String) (d : List (String × String)) :
    (d.map (fun p => if p.1 == k then (k, v) else p)).map Prod.fst
      = d.map Prod.fst := by
  induction d with
  | nil => rfl
  | cons p d ih =>
    have hhead : (if (p.1 == k) = true then (k, v) else p).1 = p.1 := by
      by_cases hp : (p.1 == k) = true
      · rw [if_pos hp]
        exact (eq_of_beq hp).symm
      · rw [if_neg hp]
    simp only [List.map_cons, hhead, ih]

theorem dictInsert_keys_mem (k v : String) (d : List (String × String))
    (x : String) :
    x ∈ (dictInsert k v d).map Prod.fst ↔ x ∈ d.map Prod.fst ∨ x = k := by
  by_cases h : d.any (fun p => p.1 == k) = true
  · have hk : k ∈ d.map Prod.fst := by
      obtain ⟨p, hp, he⟩ := List.any_eq_true.mp h
      exact (eq_of_beq he) ▸ List.mem_map_of_mem Prod.fst hp
    rw [dictInsert, if_pos h, map_upd_keys]
    exact ⟨fun hx => Or.inl hx, fun hx => hx.elim id (fun he2 => he2 ▸ hk)⟩
  · rw [dictInsert, if_neg h, List.map_append]
    simp

theorem dictInsert_keys_nodup (k v : String) (d : List (String × String))
    (h : (d.map Prod.fst).Nodup) :
    ((dictInsert k v d).map Prod.fst).Nodup := by
  by_cases ha : d.any (fun p => p.1 == k) = true
  · rw [dictInsert, if_pos ha, map_upd_keys]
    exact h
  · have hk : k ∉ d.map Prod.fst := by
      intro hk
      obtain ⟨p, hp, he⟩ := List.mem_map.mp hk
      exact ha (List.any_eq_true.mpr ⟨p, hp, by simp [he]⟩)
    rw [dictInsert, if_neg ha, List.map_append]
    simp [List.nodup_append, h, hk]

theorem lookup_map_upd (k v : String) (d : List (String × String))
    (h : d.any (fun p => p.1 == k) = true) :
    (d.map (fun p => if p.1 == k then (k, v) else p)).lookup k = some v := by
  induction d with
  | nil => simp at h
  | cons p d ih =>
    simp only [List.map_cons]
    by_cases hp : (p.1 == k) = true
    · rw [if_pos hp]
      simp only [List.lookup, beq_self_eq_true]
    · rw [if_neg hp]
      have hpk : (p.1 == k) = false := by simpa using hp
      have h' : d.any (fun p => p.1 == k) = true := by
        have := h
        simp only [List.any_cons, hpk, Bool.false_or] at this
        exact this
      simp only [List.lookup, beq_false_symm _ _ hpk]
      exact ih h'

theorem lookup_append_self (k v : String) (d : List (String × String))
    (h : d.any (fun p => p.1 == k) = false) :
    (d ++ [(k, v)]).lookup k = some v := by
  induction d with
  | nil => simp only [List.nil_append, List.lookup, beq_self_eq_true]
  | cons p d ih =>
    have hsplit := h
    simp only [List.any_cons, Bool.or_eq_false_iff] at hsplit
    simp only [List.cons_append, List.lookup, beq_false_symm _ _ hsplit.1]
    exact ih hsplit.2

theorem dictInsert_lookup_self (k v : String) (d : List (String × String)) :
    (dictInsert k v d).lookup k = some v := by
  by_cases h : d.any (fun p => p.1 == k) = true
  · rw [dictInsert, if_pos h]
    exact lookup_map_upd k v d h
  · rw [dictInsert, if_neg h]
    have h0 : d.any (fun p => p.1 == k) = false := by
      cases hany : d.any (fun p => p.1 == k)
      · rfl
      · exact absurd hany h
    exact lookup_append_self k v d h0

theorem dictInsert_lookup_other (k v x : String)
    (d : List (String × String)) (hx : x ≠ k) :
    (dictInsert k v d).lookup x = d.lookup x := by
  have hxk : (x == k) = false := beq_eq_false_iff_ne.mpr hx
  by_cases h : d.any (fun p => p.1 == k) = true
  · rw [dictInsert, if_pos h]
    clear h
    induction d with
    | nil => rfl
    | cons p d ih =>
      simp only [List.map_cons]
      by_cases hp : (p.1 == k) = true
      · rw [if_pos hp]
        have hxp : (x == p.1) = false := by
          rw [eq_of_beq hp]
          exact hxk
        simp only [List.lookup, hxk, hxp]
        exact ih
      · rw [if_neg hp]
        cases hxp : (x == p.1) <;> simp only [List.lookup, hxp] <;>
          first
            | rfl
            | exact ih
  · rw [dictInsert, if_neg h]
    clear h
    induction d with
    | nil => simp only [List.nil_append, List.lookup, hxk]
    | cons p d ih =>
      cases hxp : (x == p.1) <;>
        simp only [List.cons_append, List.lookup, hxp] <;>
        first
          | rfl
          | exact ih

theorem capture_loop_keys_mem (attempt : String → Except String String) :
    ∀ (routes : List String) (acc : List (String × String)) (x : String),
      x ∈ ((routes.foldl
          (fun shots r => dictInsert r (routeCaptureValue attempt r) shots)
          acc).map Prod.fst)
        ↔ x ∈ acc.map Prod.fst ∨ x ∈ routes := by
  intro routes
  induction routes with
  | nil => simp
  | cons r rs ih =>
    intro acc x
    rw [List.foldl_cons, ih, dictInsert_keys_mem]
    simp [List.mem_cons]
    tauto

theorem capture_loop_nodup (attempt : String → Except String String) :
    ∀ (routes : List String) (acc : List (String × String)),
      (acc.map Prod.fst).Nodup →
      ((routes.foldl
          (fun shots r => dictInsert r (routeCaptureValue attempt r) shots)
          acc).map Prod.fst).Nodup := by
  intro routes
  induction routes with
  | nil => intro acc h; simpa using h
  | cons r rs ih =>
    intro acc h
    rw [List.foldl_cons]
    exact ih _ (dictInsert_keys_nodup _ _ _ h)

theorem capture_loop_lookup_notmem (attempt : String → Except String String) :
    ∀ (routes : List String) (acc : List (String × String)) (x : String),
      x ∉ routes →
      (routes.foldl
          (fun shots r => dictInsert r (routeCaptureValue attempt r) shots)
          acc).lookup x = acc.lookup x := by
  intro routes
  induction routes with
  | nil => intro acc x _; rfl
  | cons r rs ih =>
    intro acc x hx
    rw [List.foldl_cons, ih _ _ (fun hm => hx (List.mem_cons_of_mem r hm)),
      dictInsert_lookup_other _ _ _ _
        (fun he => hx (by rw [he]; exact List.mem_cons_self r rs))]

theorem capture_loop_lookup_mem (attempt : String → Except String String) :
    ∀ (routes : List String) (acc : List (String × String)) (r : String),
      r ∈ routes →
      (routes.foldl
          (fun shots r => dictInsert r (routeCaptureValue attempt r) shots)
          acc).lookup r = some (routeCaptureValue attempt r) := by
  intro routes
  induction routes with
  | nil => intro acc r hr; simp at hr
  | cons q rs ih =>
    intro acc r hr
    rw [List.foldl_cons]
    by_cases hmem : r ∈ rs
    · exact ih _ r hmem
    · have hrq : r = q := by
        rcases List.mem_cons.mp hr with h | h
        · exact h
        · exact absurd h hmem
      subst hrq
      rw [capture_loop_lookup_notmem attempt rs _ r hmem,
        dictInsert_lookup_self]

/-- C6: the returned per-route mapping has exactly the requested routes as
keys, each exactly once (membership coincides with the requested list and
the key list has no duplicates); every requested route is present, a failing
route being mapped to the `Error capturing route:` marker rather than being
absent; and one route's failure leaves every other route's entry intact. -/
theorem c6_route_mapping (routes : List String)
    (attempt : String → Except String String) :
    ((captureReactRoutes routes attempt).map Prod.fst).Nodup ∧
    (∀ r, r ∈ (captureReactRoutes routes attempt).map Prod.fst ↔
      r ∈ routes) ∧
    (∀ r, r ∈ routes →
      (captureReactRoutes routes attempt).lookup r
        = some (routeCaptureValue attempt r)) ∧
    (∀ r e, attempt r = .error e →
      routeCaptureValue attempt r = "Error capturing route: " ++ e) := by
  refine ⟨?_, ?_, ?_, ?_⟩
  · exact capture_loop_nodup attempt routes [] (by simp)
  · intro r
    rw [captureReactRoutes, capture_loop_keys_mem]
    simp
  · intro r hr
    exact capture_loop_lookup_mem attempt routes [] r hr
  · intro r e he
    simp [routeCaptureValue, he]

/-- C6 witness: with `/about` failing and `/` rendering, both requested
routes are present, the failed one carrying the error marker. -/
theorem c6_witness :
    (captureReactRoutes ["/", "/about"] sampleAttempt).lookup "/about"
      = some "Error capturing route: net::ERR_CONNECTION_REFUSED" ∧
    (captureReactRoutes ["/", "/about"] sampleAttempt).lookup "/"
      = some "<html></html>" := by
  have h := c6_route_mapping ["/", "/about"] sampleAttempt
  refine ⟨?_, ?_⟩
  · have h2 := h.2.2.1 "/about" (by simp)
    simpa [routeCaptureValue, sampleAttempt] using h2
  · have h2 := h.2.2.1 "/" (by simp)
    simpa [routeCaptureValue, sampleAttempt] using h2

/-! ### C3 — cleanup of containers and temp directories -/

theorem cleanup_containers (d cn : String) (st : SysState) :
    (cleanupReactProject (some d) (some cn) st).containers
      = (dockerStop cn st).containers := by
  unfold cleanupReactProject
  dsimp only
  by_cases h : (dockerStop cn st).dirs.contains d = true
  · rw [if_pos h]
    rfl
  · rw [if_neg h]

theorem cleanup_dirs_notmem (d cn : String) (st : SysState) :
    d ∉ (cleanupReactProject (some d) (some cn) st).dirs := by
  unfold cleanupReactProject
  dsimp only
  by_cases h : (dockerStop cn st).dirs.contains d = true
  · rw [if_pos h]
    intro hm
    have hf := List.mem_filter.mp hm
    simp at hf
  · rw [if_neg h]
    intro hm
    exact h (List.elem_eq_true_of_mem hm)

theorem stop_running (n : String) (st : SysState) :
    ∀ c ∈ (dockerStop n st).containers, c.name = n → c.running = false := by
  intro c hc hn
  obtain ⟨a, ha, hfa⟩ := List.mem_map.mp hc
  by_cases hak : (a.name == n) = true
  · rw [if_pos hak] at hfa
    rw [← hfa]
  · rw [if_neg hak] at hfa
    subst hfa
    exact absurd (beq_iff_eq.mpr hn) hak

/-- C3 counterexample: a request that starts its container and captures
successfully ends — after the `finally` cleanup — with its container still
recorded by the daemon (stopped, NOT removed: `_cleanup_react_project` only
runs `docker stop`, and `docker run` was issued without `--rm`), so the
number of lingering containers for the request is not zero. -/
theorem c3_counterexample :
    (executeReactProjectState "abc12345" .afterStart ⟨[], []⟩).containers
      = [⟨"react_spa_abc12345", false⟩] ∧
    ((executeReactProjectState "abc12345" .afterStart ⟨[], []⟩).containers.any
      fun c => c.name == "react_spa_abc12345") = true := by
  refine ⟨by decide, by decide⟩

/-- C3 (amended): on every exit path the `finally` cleanup stops the
request's container and deletes the request's working directory — after the
call no running container and no temp directory remain for the request —
but the container is only stopped, never removed, so its stopped record
lingers. -/
theorem c3_cleanup_amended (projectId : String) (ex : ReactExit)
    (st : SysState) (c : ContainerRec)
    (hc : c ∈ (executeReactProjectState projectId ex st).containers)
    (hn : c.name = "react_spa_" ++ projectId) :
    c.running = false ∧
    reactProjectDirPath projectId
      ∉ (executeReactProjectState projectId ex st).dirs := by
  constructor
  · rw [executeReactProjectState, cleanup_containers] at hc
    exact stop_running _ _ c hc hn
  · rw [executeReactProjectState]
    exact cleanup_dirs_notmem _ _ _

/-- C3 witness: instantiating the amended theorem on the concrete
happy-path run. -/
theorem c3_witness :
    (⟨"react_spa_abc12345", false⟩ : ContainerRec).running = false ∧
    reactProjectDirPath "abc12345"
      ∉ (executeReactProjectState "abc12345" .afterStart ⟨[], []⟩).dirs :=
  c3_cleanup_amended "abc12345" .afterStart ⟨[], []⟩
    ⟨"react_spa_abc12345", false⟩ (by decide) (by decide)

/-! ### C4 — no exception escapes the public entry points -/

/-- C4: `execute_code` and `execute_react_project` normalize every expected
failure mode — a caught exception on any path, a runtime timeout, a compile
failure, a render/serve failure, a react project failure — into a plain
result tuple with `success = false` and a non-empty human-readable message;
no failure leaves the boundary as an exception (the entry points are total
functions into the result shape). -/
theorem c4_failures_normalized (code e : String) (env : ExecEnv)
    (p cp : Proc) :
    executeCode code "python" { env with python := .exn e }
      = execErrorResult e ∧
    executeCode code "c" { env with cCompile := .exn e }
      = execErrorResult e ∧
    executeCode code "java" { env with javaCompile := .exn e }
      = execErrorResult e ∧
    (p.duration > runTimeout →
      executeCode code "python" { env with python := .ok p }
        = timeoutResult) ∧
    (cp.result.exitCode ≠ 0 →
      executeCode code "c" { env with cCompile := .ok cp }
        = ⟨false, "", "Compilation error: " ++ cp.result.stderr,
            cp.result.exitCode⟩) ∧
    executeCode code "html" { env with htmlRender := .error e }
      = ⟨false, "", "HTML execution error: " ++ e, 1⟩ ∧
    executeCode code "node" { env with nodeServe := .error e }
      = ⟨false, "", "Node.js execution error: " ++ e, 1⟩ ∧
    (executeReactProject (.failed e)).success = false ∧
    (executeReactProject (.failed e)).output
      = "React project execution failed: " ++ e ∧
    ("Execution error: " ++ e) ≠ "" ∧
    ("React project execution failed: " ++ e) ≠ "" ∧
    ("HTML execution error: " ++ e) ≠ "" ∧
    ("Node.js execution error: " ++ e) ≠ "" := by
  refine ⟨?_, ?_, ?_, ?_, ?_, ?_, ?_, rfl, rfl,
    strAppend_ne_empty _ _ (by decide), strAppend_ne_empty _ _ (by decide),
    strAppend_ne_empty _ _ (by decide), strAppend_ne_empty _ _ (by decide)⟩
  · simp [executeCode, subprocessExecute, executePythonCode]
  · simp [executeCode, subprocessExecute, executeCCode]
  · simp [executeCode, subprocessExecute, executeJavaCode]
  · intro hp
    simp [executeCode, subprocessExecute, executePythonCode,
      awaitRunStep_timeout _ hp]
  · intro hcp
    simp [executeCode, subprocessExecute, executeCCode, hcp]
  · simp [executeCode, executeWebCode, executeHtmlCode]
  · simp [executeCode, executeWebCode, executeNodeCode]

/-- C4 witness: a caught exception on the Python path and a failed C
compile both come back as plain failure tuples. -/
theorem c4_witness :
    executeCode "x" "python" { sampleEnv with python := .exn "boom" }
      = execErrorResult "boom" ∧
    executeCode "x" "c" { sampleEnv with cCompile := .ok ⟨1, ⟨"", "err", 2⟩⟩ }
      = ⟨false, "", "Compilation error: err", 2⟩ := by
  have h := c4_failures_normalized "x" "boom" sampleEnv
    ⟨31, ⟨"", "", 0⟩⟩ ⟨1, ⟨"", "err", 2⟩⟩
  exact ⟨h.1, h.2.2.2.2.1 (by decide)⟩

end Labmate
